import Mathlib

/-!
Verification development for the Carwaan carpool-matching backend.

The definitions below are a shallow embedding of the matching core:
* `Ride.calculate_distance` (backend/rides/models.py, haversine) over `ℝ`,
* `Ride.match_score` (backend/rides/models.py) with exact rational arithmetic
  (Python float arithmetic on the small integral weights is exact, so `ℚ` is a
  faithful carrier for the score; the two geographic distances, which are
  produced by real trigonometric functions, enter only through the step
  function `distance_points`),
* `update_rating` (identical bodies in `Ride.update_rating` and
  `User.update_rating`),
* the candidate-filtering endpoint bodies of `RideViewSet`
  (backend/rides/views.py): `available_rides`, `search_rides`,
  `recommended_rides`, `colleagues_rides`, `friend_group_rides`,
  `social_connections_rides`, and the score-and-sort step (`rank`).

Timestamps are modelled as minutes since an epoch (`ℤ`): the calendar date of
a timestamp `t` is `t / 1440` and its minutes-since-midnight is `t % 1440`.
Django's `departure_time__date` filter and the `hour/minute` reads in
`match_score` are expressed through these projections.  JSON dictionaries
(`comfort_features`, `friend_groups`) are modelled as records of optional
fields / association lists; Python truthiness of the optional values is
modelled by the `truthy*` helpers (None and 0.0 and "" and [] are falsy).
-/

namespace Carwaan

/-- Case-sensitive infix test on character lists (needle, haystack). -/
def charsContain (needle : List Char) : List Char → Bool
  | [] => needle.isEmpty
  | c :: cs => (needle.isPrefixOf (c :: cs)) || charsContain needle cs

/-- Case-insensitive substring test, modelling Django `__icontains` and
Python `needle.lower() in hay.lower()`. -/
def icontains (hay needle : String) : Bool :=
  charsContain needle.toLower.toList hay.toLower.toList

/-- Python truthiness of an optional float field (None and 0.0 are falsy). -/
def truthyQ : Option ℚ → Bool
  | none => false
  | some v => decide (v ≠ 0)

/-- Python truthiness of an optional JSON list (None and [] are falsy). -/
def truthyList {α : Type} : Option (List α) → Bool
  | none => false
  | some l => !l.isEmpty

/-- User record: the fields of `users.models.User` read by the matching core.
The three base comfort preferences are `Option` to model the `hasattr` guards
in `Ride.match_score` (design note §9 of the spec: attribute presence). -/
structure User where
  id : ℕ
  workplace : String
  connections : List ℕ
  friend_groups : Option (List (String × List ℕ))
  average_rating : ℚ
  preferred_days : Option (List ℕ)
  preferred_departure_times : Option (List String)
  preferred_music : Option (List String)
  smoking_preference : Option String
  ac_preference : Option String
  chat_preference : Option String
  deriving DecidableEq, Repr

/-- The `comfort_features` JSON dictionary of a ride: the four keys read by
`Ride.match_score`, each optional (absent key). `none` at the dictionary level
models a falsy (`None` or empty) dictionary. -/
structure ComfortFeatures where
  smoking_allowed : Option Bool
  has_ac : Option Bool
  chat_level : Option String
  music_genres : Option (List String)
  deriving DecidableEq, Repr

/-- Ride record: the fields of `rides.models.Ride` read by the matching core.
`departure_time` is in minutes since the epoch; `driver` is the joined user
row (`self.driver`). -/
structure Ride where
  id : ℕ
  driver : User
  departure_time : ℤ
  pickup_location : String
  dropoff_location : String
  available_seats : ℕ
  status : String
  friend_group : String
  pickup_latitude : Option ℚ
  pickup_longitude : Option ℚ
  dropoff_latitude : Option ℚ
  dropoff_longitude : Option ℚ
  recurring : Bool
  recurring_days : Option (List ℕ)
  is_workplace_ride : Bool
  comfort_features : Option ComfortFeatures
  average_rating : ℚ
  total_ratings : ℕ
  deriving DecidableEq, Repr

/-- A `rides.models.RidePassenger` row (the columns the filters read). -/
structure Passenger where
  ride : ℕ
  passenger : ℕ
  status : String
  deriving DecidableEq, Repr

/-! ### Geo module: `Ride.calculate_distance` (models.py lines 143-166) -/

/-- Python `math.radians`. -/
noncomputable def radians (x : ℝ) : ℝ := x * Real.pi / 180

/-- Python `math.atan2 y x` (two-argument arctangent with quadrant fixup). -/
noncomputable def atan2 (y x : ℝ) : ℝ :=
  if 0 < x then Real.arctan (y / x)
  else if x < 0 ∧ 0 ≤ y then Real.arctan (y / x) + Real.pi
  else if x < 0 ∧ y < 0 then Real.arctan (y / x) - Real.pi
  else if x = 0 ∧ 0 < y then Real.pi / 2
  else if x = 0 ∧ y < 0 then -(Real.pi / 2)
  else 0

/-- Haversine great-circle distance, `Ride.calculate_distance`. -/
noncomputable def calculate_distance (lat1 lon1 lat2 lon2 : ℝ) : ℝ :=
  let R : ℝ := 6371
  let lat1_rad := radians lat1
  let lon1_rad := radians lon1
  let lat2_rad := radians lat2
  let lon2_rad := radians lon2
  let dlon := lon2_rad - lon1_rad
  let dlat := lat2_rad - lat1_rad
  let a := Real.sin (dlat / 2) ^ 2 +
    Real.cos lat1_rad * Real.cos lat2_rad * Real.sin (dlon / 2) ^ 2
  let c := 2 * atan2 (Real.sqrt a) (Real.sqrt (1 - a))
  R * c

/-! ### Score calculator: `Ride.match_score` (models.py lines 168-354) -/

/-- Step function on one distance in the proximity factor
(models.py lines 195-212). -/
noncomputable def distance_points (d : ℝ) : ℚ :=
  if d ≤ 1 then 20
  else if d ≤ 3 then 15
  else if d ≤ 5 then 10
  else if d ≤ 10 then 5
  else 0

/-- Proximity factor (models.py lines 175-212): evaluated only when all four
coordinate fields are truthy; the two distances are the haversine distances
computed there and are passed in as arguments. -/
noncomputable def proximity_points (ride : Ride)
    (pickup_distance dropoff_distance : ℝ) : ℚ :=
  if truthyQ ride.pickup_latitude && truthyQ ride.pickup_longitude &&
     truthyQ ride.dropoff_latitude && truthyQ ride.dropoff_longitude then
    distance_points pickup_distance + distance_points dropoff_distance
  else 0

/-- Split a character list on a separator character, modelling Python
`str.split(sep)` for a one-character separator (empty pieces preserved). -/
def splitChar (sep : Char) : List Char → List Char → List (List Char)
  | [], acc => [acc.reverse]
  | c :: cs, acc =>
    if c = sep then acc.reverse :: splitChar sep cs []
    else splitChar sep cs (c :: acc)

/-- Decimal digit run to a natural number (none when empty or non-digit). -/
def digitsToNat? (cs : List Char) : Option ℕ :=
  if cs.isEmpty || !(cs.all Char.isDigit) then none
  else some (cs.foldl (fun n c => n * 10 + (c.toNat - 48)) 0)

/-- Python `int` on a plain optionally-signed decimal literal (the only
shapes that occur in well-formed time inputs; other Python `int` extras such
as surrounding whitespace are out of scope of the claims). -/
def chars_to_int? (cs : List Char) : Option ℤ :=
  match cs with
  | '-' :: rest => (digitsToNat? rest).map (fun n => -(n : ℤ))
  | _ => (digitsToNat? cs).map (fun n => (n : ℤ))

/-- Parser for one endpoint of a "HH:MM" time (no range check: `match_score`
parses with bare `int`, models.py lines 226-234). Returns
minutes-since-midnight. -/
def parse_hm_chars (cs : List Char) : Option ℤ :=
  match splitChar ':' cs [] with
  | [h, m] =>
    match chars_to_int? h, chars_to_int? m with
    | some h, some m => some (h * 60 + m)
    | _, _ => none
  | _ => none

/-- Parser for one "HH:MM-HH:MM" preferred range; any failure is skipped
(models.py lines 224-241). -/
def parse_time_range (s : String) : Option (ℤ × ℤ) :=
  match splitChar '-' s.toList [] with
  | [st, en] =>
    match parse_hm_chars st, parse_hm_chars en with
    | some a, some b => some (a, b)
    | _, _ => none
  | _ => none

/-- Time-of-day factor (models.py lines 214-241): 20 points when some
well-formed preferred range contains the departure minute, inclusive. -/
def time_points (prefs : Option (List String)) (ride_time_minutes : ℤ) : ℚ :=
  if truthyList prefs &&
     (prefs.getD []).any (fun s =>
       match parse_time_range s with
       | some (a, b) => decide (a ≤ ride_time_minutes ∧ ride_time_minutes ≤ b)
       | none => false) then 20
  else 0

/-- Driver-reputation factor (models.py lines 243-247). -/
def rating_points (avg : ℚ) : ℚ :=
  if 0 < avg then min 10 (avg * 2) else 0

/-- Smoking dimension of the preference factor (models.py lines 259-272). -/
def smoking_points (sp : String) (cf : ComfortFeatures) : ℚ :=
  if sp != "no_preference" then
    if sp == "no_smoking" && cf.smoking_allowed.getD false == false then 5
    else if sp == "smoking_allowed" && cf.smoking_allowed.getD false == true then 5
    else 0
  else 3

/-- AC dimension of the preference factor (models.py lines 274-287). -/
def ac_points (ap : String) (cf : ComfortFeatures) : ℚ :=
  if ap != "no_preference" then
    if ap == "ac_required" && cf.has_ac.getD false == true then 5
    else if ap == "no_ac" && cf.has_ac.getD false == false then 5
    else 0
  else 3

/-- Chat dimension of the preference factor (models.py lines 289-300);
`chat_level` defaults to "moderate" when the key is absent. -/
def chat_points (cp : String) (cf : ComfortFeatures) : ℚ :=
  if cp != "no_preference" then
    if cp == "chatty" && (cf.chat_level.getD "moderate" == "chatty" ||
        cf.chat_level.getD "moderate" == "moderate") then 5
    else if cp == "quiet" && (cf.chat_level.getD "moderate" == "quiet" ||
        cf.chat_level.getD "moderate" == "moderate") then 5
    else 0
  else 3

/-- Music dimension of the preference factor (models.py lines 302-313). -/
def music_points (pm : Option (List String)) (cf : ComfortFeatures) : ℚ :=
  if truthyList pm && cf.music_genres.isSome then
    if (cf.music_genres.getD []).any (fun g => (pm.getD []).contains g) then 5
    else 0
  else 0

/-- The accumulated preference score before its cap at 20 (models.py
lines 249-313): evaluated only when `comfort_features` is truthy and the
rider carries the three base preference attributes. -/
def preference_points (u : User) (cf? : Option ComfortFeatures) : ℚ :=
  match cf?, u.smoking_preference, u.ac_preference, u.chat_preference with
  | some cf, some sp, some ap, some cp =>
    smoking_points sp cf + ac_points ap cf + chat_points cp cf +
      music_points u.preferred_music cf
  | _, _, _, _ => 0

/-- Workplace-ride bonus (models.py lines 320-326). -/
def workplace_bonus (ride : Ride) (u : User) : ℚ :=
  if ride.is_workplace_ride && u.workplace != "" &&
     (icontains ride.pickup_location u.workplace ||
      icontains ride.dropoff_location u.workplace) then 5
  else 0

/-- Colleague bonus (models.py lines 328-336). -/
def colleague_bonus (ride : Ride) (u : User) : ℚ :=
  if u.workplace != "" && ride.driver.workplace != "" &&
     u.workplace.toLower == ride.driver.workplace.toLower then 5
  else 0

/-- Recurrence bonus (models.py lines 338-351): one point per distinct
weekday in the intersection of the two day sets. -/
def recurring_bonus (ride : Ride) (u : User) : ℚ :=
  if ride.recurring && truthyList ride.recurring_days &&
     truthyList u.preferred_days then
    let common := (ride.recurring_days.getD []).dedup.filter
      (fun d => (u.preferred_days.getD []).contains d)
    if common.isEmpty then 0 else (common.length : ℚ)
  else 0

/-- The raw accumulated score of `Ride.match_score` before the final cap:
base 50 plus the five factors, with the two proximity distances passed in. -/
noncomputable def raw_score (ride : Ride) (u : User)
    (pickup_distance dropoff_distance : ℝ) : ℚ :=
  50 + proximity_points ride pickup_distance dropoff_distance
     + time_points u.preferred_departure_times (ride.departure_time % 1440)
     + rating_points ride.driver.average_rating
     + min 20 (preference_points u ride.comfort_features)
     + workplace_bonus ride u
     + colleague_bonus ride u
     + recurring_bonus ride u

/-- Body of `Ride.match_score` with the two haversine distances already computed
(models.py line 354: final cap at 100). -/
noncomputable def match_score_at (ride : Ride) (u : User)
    (pickup_distance dropoff_distance : ℝ) : ℚ :=
  min 100 (raw_score ride u pickup_distance dropoff_distance)

/-- The operation `Ride.match_score(user, user_lat, user_lng, user_dest_lat, user_dest_lng)`
(models.py lines 168-354). The distances are computed exactly as in the
proximity block (lines 183-192); they are consumed only under the coordinate
guard inside `proximity_points`, so hoisting them is semantics-preserving. -/
noncomputable def match_score (ride : Ride) (u : User)
    (user_lat user_lng user_dest_lat user_dest_lng : ℝ) : ℚ :=
  match_score_at ride u
    (calculate_distance user_lat user_lng
      ((ride.pickup_latitude.getD 0 : ℚ) : ℝ) ((ride.pickup_longitude.getD 0 : ℚ) : ℝ))
    (calculate_distance user_dest_lat user_dest_lng
      ((ride.dropoff_latitude.getD 0 : ℚ) : ℝ) ((ride.dropoff_longitude.getD 0 : ℚ) : ℝ))

/-! ### Candidate filtering: the `RideViewSet` endpoint bodies (views.py)

Each endpoint is a chain of Django queryset filters; it is embedded as a
chain of list filters over the ride pool, preserving pool order.  The two
exclusion steps shared by the endpoints are named. -/

/-- Models `rides.exclude(driver=user)`. -/
def excludeUser (u : User) (l : List Ride) : List Ride :=
  l.filter (fun r => r.driver.id != u.id)

/-- Models `rides.exclude(id__in=RidePassenger.objects.filter(passenger=user)
.values_list('ride'))` — excludes rides the user joined in any status. -/
def excludeJoined (ps : List Passenger) (u : User) (l : List Ride) : List Ride :=
  l.filter (fun r => !(ps.any (fun p => p.passenger == u.id && p.ride == r.id)))

/-- Calendar-date projection of a timestamp (Django `departure_time__date`). -/
def dateOf (t : ℤ) : ℤ := t / 1440

/-- Endpoint `available_rides` (views.py lines 245-267). -/
def available_rides (pool : List Ride) (ps : List Passenger) (u : User)
    (now : ℤ) : List Ride :=
  excludeJoined ps u (excludeUser u
    (pool.filter (fun r => r.status == "scheduled" &&
      decide (now < r.departure_time) && decide (0 < r.available_seats))))

/-- Parser for the `departure_time` query parameter of `search_rides`
(views.py lines 305-316): "HH:MM" by bare `int`, but the subsequent
`datetime.replace(hour=..., minute=...)` raises (and is caught) when the
components are out of range, so out-of-range components are a parse failure.
Returns minutes-since-midnight. -/
def parse_query_time (s : String) : Option ℤ :=
  match splitChar ':' s.toList [] with
  | [h, m] =>
    match chars_to_int? h, chars_to_int? m with
    | some h, some m =>
      if 0 ≤ h ∧ h ≤ 23 ∧ 0 ≤ m ∧ m ≤ 59 then some (h * 60 + m) else none
    | _, _ => none
  | _ => none

/-- One optional narrowing filter of a queryset chain: applied only when the
corresponding query parameter is present. -/
def opt_filter {β : Type} (o : Option β) (g : β → Ride → Bool)
    (l : List Ride) : List Ride :=
  match o with
  | none => l
  | some x => l.filter (g x)

/-- The date filter and the flexible-time-window narrowing of `search_rides`
(views.py lines 300-329): filter to the requested calendar day; when a
departure time is also supplied and parses, keep rides inside
`[base - flex, base + flex]`; when it fails to parse, silently keep the
date-only filtering. -/
def date_time_narrow (d : ℤ) (departure_time : Option String) (flex : ℤ)
    (l : List Ride) : List Ride :=
  let l := l.filter (fun r => dateOf r.departure_time == d)
  match departure_time with
  | none => l
  | some t =>
    match parse_query_time t with
    | none => l
    | some m =>
      let base := d * 1440 + m
      l.filter (fun r =>
        decide (base - flex ≤ r.departure_time) &&
        decide (r.departure_time ≤ base + flex))

/-- Endpoint `search_rides` (views.py lines 269-389), up to and including the
exclusion steps.  The query `date` parameter is taken already converted to a
calendar-day index (Django converts the `YYYY-MM-DD` string when building the
`departure_time__date` filter); absent-or-empty string parameters are `none`
(an empty needle makes the substring filters the identity, so folding the
empty string into `none` is semantics-preserving).  The coordinate-scoring
branch returns the same set of rides reordered by score (see `rank`), so the
ride set of the response is the value computed here. -/
def search_rides (pool : List Ride) (ps : List Passenger) (u : User)
    (date : Option ℤ) (departure_time : Option String)
    (time_flexibility : Option String)
    (pickup dropoff workplace : Option String) : List Ride :=
  let flex : ℤ := match time_flexibility with
    | none => 30
    | some s => (s.toInt?).getD 30
  let rides := pool.filter (fun r => r.status == "scheduled" &&
    decide (0 < r.available_seats))
  let rides := match date with
    | none => rides
    | some d => date_time_narrow d departure_time flex rides
  let rides := opt_filter pickup (fun p r => icontains r.pickup_location p) rides
  let rides := opt_filter dropoff (fun p r => icontains r.dropoff_location p) rides
  let rides := opt_filter workplace (fun w r => icontains r.pickup_location w ||
    icontains r.dropoff_location w || icontains r.driver.workplace w) rides
  excludeJoined ps u (excludeUser u rides)

/-- Endpoint `recommended_rides` (views.py lines 422-506).  The coordinate-scoring
branch reorders the same base set by score (see `rank`); the workplace branch
partitions the base set into colleague rides, workplace-destination rides and
the rest, in priority order. -/
def recommended_rides (pool : List Ride) (ps : List Passenger) (u : User)
    (now : ℤ) : List Ride :=
  let rides := excludeJoined ps u (excludeUser u
    (pool.filter (fun r => r.status == "scheduled" &&
      decide (now < r.departure_time) && decide (0 < r.available_seats))))
  if u.workplace != "" then
    let colleague_rides := rides.filter
      (fun r => r.driver.workplace == u.workplace)
    let workplace_rides := (rides.filter (fun r =>
        icontains r.pickup_location u.workplace ||
        icontains r.dropoff_location u.workplace)).filter
      (fun r => !(colleague_rides.any (fun c => c.id == r.id)))
    let other_rides := (rides.filter
        (fun r => !(colleague_rides.any (fun c => c.id == r.id)))).filter
      (fun r => !(workplace_rides.any (fun c => c.id == r.id)))
    colleague_rides ++ workplace_rides ++ other_rides
  else rides

/-- Endpoint `colleagues_rides` (views.py lines 391-420).  A rider with no workplace
set gets a 400 error and no rides, modelled as the empty list. -/
def colleagues_rides (pool : List Ride) (ps : List Passenger)
    (users : List User) (u : User) (now : ℤ) : List Ride :=
  if u.workplace == "" then []
  else
    let colleagues := users.filter
      (fun v => v.workplace == u.workplace && v.id != u.id)
    let rides := pool.filter (fun r =>
      colleagues.any (fun c => c.id == r.driver.id) &&
      r.status == "scheduled" && decide (now < r.departure_time) &&
      decide (0 < r.available_seats))
    excludeJoined ps u rides

/-- Endpoint `friend_group_rides` (views.py lines 623-668).  A missing `group`
parameter gets a 400 error and no rides, modelled as the empty list; the
queryset union `rides | group_rides` removes duplicate rows by id. -/
def friend_group_rides (pool : List Ride) (ps : List Passenger) (u : User)
    (now : ℤ) (group : String) : List Ride :=
  if group == "" then []
  else
    let rides1 := pool.filter (fun r => r.status == "scheduled" &&
      decide (now < r.departure_time) && decide (0 < r.available_seats) &&
      r.friend_group == group)
    let members : List ℕ := match u.friend_groups with
      | none => []
      | some gs =>
        if gs.isEmpty then []
        else ((gs.find? (fun g => g.1 == group)).map Prod.snd).getD []
    let rides2 := if members.isEmpty then []
      else pool.filter (fun r =>
        members.any (fun m => m == r.driver.id) &&
        r.status == "scheduled" && decide (now < r.departure_time) &&
        decide (0 < r.available_seats))
    let rides := rides1 ++ rides2.filter
      (fun r => !(rides1.any (fun s => s.id == r.id)))
    excludeJoined ps u (excludeUser u rides)

/-- Endpoint `social_connections_rides` (views.py lines 670-723): union of rides by
connections (plus colleagues when a workplace is set) and rides shared with
the rider's friend groups, then the exclusions, sorted by departure time. -/
def social_connections_rides (pool : List Ride) (ps : List Passenger)
    (users : List User) (u : User) (now : ℤ) : List Ride :=
  let connection_ids := u.connections
  let all_connections :=
    if u.workplace != "" then
      (connection_ids ++ (users.filter (fun v =>
        v.workplace == u.workplace && v.id != u.id)).map User.id).dedup
    else connection_ids
  let rides := pool.filter (fun r =>
    all_connections.any (fun c => c == r.driver.id) &&
    r.status == "scheduled" && decide (now < r.departure_time) &&
    decide (0 < r.available_seats))
  let rides := match u.friend_groups with
    | none => rides
    | some gs =>
      if gs.isEmpty then rides
      else
        let user_groups := gs.map Prod.fst
        if user_groups.isEmpty then rides
        else
          let group_rides := pool.filter (fun r =>
            user_groups.any (fun g => g == r.friend_group) &&
            r.status == "scheduled" && decide (now < r.departure_time) &&
            decide (0 < r.available_seats))
          rides ++ group_rides.filter
            (fun r => !(rides.any (fun s => s.id == r.id)))
  let rides := excludeJoined ps u (excludeUser u rides)
  List.insertionSort (fun a b => a.departure_time ≤ b.departure_time) rides

/-! ### Ranker: the score-and-sort step of `search_rides` and
`recommended_rides` (views.py lines 363-372 and 455-464) -/

/-- Descending score order on scored candidates: the comparison used by
`scored_rides.sort(key=lambda x: x[1], reverse=True)`. -/
def score_ge (a b : Ride × ℚ) : Prop := b.2 ≤ a.2

instance : DecidableRel score_ge := fun a b => by
  unfold score_ge; infer_instance

instance : IsTotal (Ride × ℚ) score_ge :=
  ⟨fun a b => le_total b.2 a.2⟩

instance : IsTrans (Ride × ℚ) score_ge :=
  ⟨fun _ _ _ h1 h2 => le_trans h2 h1⟩

/-- The score-and-sort step: score each candidate with `match_score`, then
sort descending by score.  Python `list.sort` is stable and `reverse=True`
preserves stability, so the step is a stable descending sort, which is what
insertion sort with `score_ge` computes. -/
noncomputable def rank (cands : List Ride) (u : User)
    (lat lng dest_lat dest_lng : ℝ) : List (Ride × ℚ) :=
  List.insertionSort score_ge
    (cands.map (fun r => (r, match_score r u lat lng dest_lat dest_lng)))

/-! ### Rating update: `Ride.update_rating` (models.py lines 129-141) and
`User.update_rating` (users/models.py lines 106-118), identical bodies -/

/-- Mutable rating aggregate of a ride or user. -/
structure RatingState where
  average_rating : ℚ
  total_ratings : ℕ
  deriving DecidableEq, Repr

/-- Method `update_rating(new_rating)`: the guard raises `ValueError` before any
field is assigned, so the post-call state on the error path is the input
state.  The first component is the observable state after the call, the
second the raised error message, if any. -/
def update_rating (st : RatingState) (new_rating : ℚ) :
    RatingState × Option String :=
  if new_rating < 1 ∨ 5 < new_rating then
    (st, some "Rating must be between 1 and 5")
  else if st.total_ratings = 0 then
    ({ average_rating := new_rating, total_ratings := st.total_ratings + 1 }, none)
  else
    ({ average_rating :=
        (st.average_rating * st.total_ratings + new_rating) / (st.total_ratings + 1),
       total_ratings := st.total_ratings + 1 }, none)

/-! ### Helper lemmas about the score factors -/

lemma distance_points_nonneg (d : ℝ) : 0 ≤ distance_points d := by
  unfold distance_points; split_ifs <;> norm_num

lemma proximity_points_nonneg (ride : Ride) (pd dd : ℝ) :
    0 ≤ proximity_points ride pd dd := by
  unfold proximity_points
  split_ifs
  · exact add_nonneg (distance_points_nonneg _) (distance_points_nonneg _)
  · exact le_refl 0

lemma time_points_nonneg (prefs : Option (List String)) (t : ℤ) :
    0 ≤ time_points prefs t := by
  unfold time_points; split_ifs <;> norm_num

lemma rating_points_nonneg (avg : ℚ) : 0 ≤ rating_points avg := by
  unfold rating_points
  split_ifs with h
  · exact le_min (by norm_num) (by linarith)
  · exact le_refl 0

lemma smoking_points_nonneg (sp : String) (cf : ComfortFeatures) :
    0 ≤ smoking_points sp cf := by
  unfold smoking_points; split_ifs <;> norm_num

lemma ac_points_nonneg (ap : String) (cf : ComfortFeatures) :
    0 ≤ ac_points ap cf := by
  unfold ac_points; split_ifs <;> norm_num

lemma chat_points_nonneg (cp : String) (cf : ComfortFeatures) :
    0 ≤ chat_points cp cf := by
  unfold chat_points; split_ifs <;> norm_num

lemma music_points_nonneg (pm : Option (List String)) (cf : ComfortFeatures) :
    0 ≤ music_points pm cf := by
  unfold music_points; split_ifs <;> norm_num

lemma preference_points_nonneg (u : User) (cf? : Option ComfortFeatures) :
    0 ≤ preference_points u cf? := by
  obtain ⟨i, w, c, f, a, d, t, pm, sp, ap, cp⟩ := u
  unfold preference_points
  rcases cf? with _ | cf <;> rcases sp with _ | sp <;> rcases ap with _ | ap <;>
    rcases cp with _ | cp <;> dsimp <;>
    first
    | exact le_refl 0
    | exact add_nonneg (add_nonneg (add_nonneg (smoking_points_nonneg _ _)
        (ac_points_nonneg _ _)) (chat_points_nonneg _ _)) (music_points_nonneg _ _)

lemma workplace_bonus_nonneg (ride : Ride) (u : User) :
    0 ≤ workplace_bonus ride u := by
  unfold workplace_bonus; split_ifs <;> norm_num

lemma colleague_bonus_nonneg (ride : Ride) (u : User) :
    0 ≤ colleague_bonus ride u := by
  unfold colleague_bonus; split_ifs <;> norm_num

lemma recurring_bonus_nonneg (ride : Ride) (u : User) :
    0 ≤ recurring_bonus ride u := by
  unfold recurring_bonus
  split_ifs <;> positivity

lemma raw_score_ge_base (ride : Ride) (u : User) (pd dd : ℝ) :
    50 ≤ raw_score ride u pd dd := by
  unfold raw_score
  have h1 := proximity_points_nonneg ride pd dd
  have h2 := time_points_nonneg u.preferred_departure_times (ride.departure_time % 1440)
  have h3 := rating_points_nonneg ride.driver.average_rating
  have h4 : 0 ≤ min 20 (preference_points u ride.comfort_features) :=
    le_min (by norm_num) (preference_points_nonneg u ride.comfort_features)
  have h5 := workplace_bonus_nonneg ride u
  have h6 := colleague_bonus_nonneg ride u
  have h7 := recurring_bonus_nonneg ride u
  linarith

/-- C1: for every ride and rider (any combination of present or absent
coordinates, preferences, comfort features, ratings and social data) and any
coordinate arguments, `Ride.match_score` equals `min 100` of the raw
accumulated score, every accumulated factor is non-negative on top of the
base 50, and the final score lies between 50 and 100 inclusive. -/
theorem match_score_bounded_additive : ∀ (ride : Ride) (u : User)
    (lat lng dest_lat dest_lng pd dd : ℝ),
    match_score_at ride u pd dd = min 100 (raw_score ride u pd dd) ∧
    0 ≤ proximity_points ride pd dd ∧
    0 ≤ time_points u.preferred_departure_times (ride.departure_time % 1440) ∧
    0 ≤ rating_points ride.driver.average_rating ∧
    0 ≤ min 20 (preference_points u ride.comfort_features) ∧
    0 ≤ workplace_bonus ride u ∧
    0 ≤ colleague_bonus ride u ∧
    0 ≤ recurring_bonus ride u ∧
    50 ≤ raw_score ride u pd dd ∧
    50 ≤ match_score ride u lat lng dest_lat dest_lng ∧
    match_score ride u lat lng dest_lat dest_lng ≤ 100 := by
  intro ride u lat lng dest_lat dest_lng pd dd
  refine ⟨rfl, proximity_points_nonneg ride pd dd, time_points_nonneg _ _,
    rating_points_nonneg _, le_min (by norm_num) (preference_points_nonneg _ _),
    workplace_bonus_nonneg _ _, colleague_bonus_nonneg _ _,
    recurring_bonus_nonneg _ _, raw_score_ge_base ride u pd dd, ?_, ?_⟩
  · exact le_min (by norm_num) (raw_score_ge_base ride u _ _)
  · exact min_le_left _ _

/-! ### Geo properties -/

lemma haversine_arg_symm (p q a b : ℝ) :
    Real.sin ((q - p) / 2) ^ 2 + Real.cos p * Real.cos q * Real.sin ((b - a) / 2) ^ 2 =
    Real.sin ((p - q) / 2) ^ 2 + Real.cos q * Real.cos p * Real.sin ((a - b) / 2) ^ 2 := by
  have hs : ∀ x y : ℝ, Real.sin ((x - y) / 2) ^ 2 = Real.sin ((y - x) / 2) ^ 2 := by
    intro x y
    have hx : (x - y) / 2 = -((y - x) / 2) := by ring
    rw [hx, Real.sin_neg, neg_sq]
  rw [hs q p, hs b a, mul_comm (Real.cos p) (Real.cos q)]

/-- C7: the haversine distance is symmetric in its two coordinate points,
and the distance from a point to itself is zero. -/
theorem distance_symm_and_self_zero : ∀ lat1 lon1 lat2 lon2 : ℝ,
    calculate_distance lat1 lon1 lat2 lon2 = calculate_distance lat2 lon2 lat1 lon1 ∧
    calculate_distance lat1 lon1 lat1 lon1 = 0 := by
  intro lat1 lon1 lat2 lon2
  constructor
  · simp only [calculate_distance]
    rw [haversine_arg_symm (radians lat1) (radians lat2) (radians lon1) (radians lon2)]
  · simp only [calculate_distance, sub_self, zero_div, Real.sin_zero, atan2]
    norm_num [Real.sqrt_one, Real.arctan_zero]

/-! ### Scenario A (C6) -/

/-- Driver of the Scenario A ride: average rating 4.0, no workplace. -/
def driverA : User :=
  { id := 1, workplace := "", connections := [], friend_groups := none,
    average_rating := 4, preferred_days := none, preferred_departure_times := none,
    preferred_music := none, smoking_preference := none, ac_preference := none,
    chat_preference := none }

/-- Scenario A rider: no time or preference data, no workplace. -/
def riderA : User := { driverA with id := 2, average_rating := 0 }

/-- Scenario A ride: coordinates present, no comfort data, not recurring. -/
def rideA : Ride :=
  { id := 10, driver := driverA, departure_time := 600, pickup_location := "A",
    dropoff_location := "B", available_seats := 2, status := "scheduled",
    friend_group := "", pickup_latitude := some 1, pickup_longitude := some 1,
    dropoff_latitude := some 1, dropoff_longitude := some 1, recurring := false,
    recurring_days := none, is_workplace_ride := false, comfort_features := none,
    average_rating := 0, total_ratings := 0 }

/-- C6: Scenario A — pickup distance 0.5 km, dropoff distance 2 km, driver
rating 4.0, no time or preference data, not recurring, no workplace bonuses:
the score is exactly 50 + 20 + 15 + 8 = 93. -/
theorem scenario_a_score : match_score_at rideA riderA (1 / 2 : ℝ) 2 = 93 := by
  norm_num [match_score_at, raw_score, proximity_points, truthyQ, distance_points,
    time_points, truthyList, rating_points, preference_points, workplace_bonus,
    colleague_bonus, recurring_bonus, rideA, riderA, driverA]

/-! ### Rating update guard (C9) -/

/-- C9: `update_rating` raises its descriptive error exactly when the new
rating is outside 1..5, and on the error path the stored aggregate is
unchanged.  (`match_score`, a total function here as in the source, never
raises on a stored rating it reads.) -/
theorem update_rating_error_guard : ∀ (st : RatingState) (r : ℚ),
    (((update_rating st r).2).isSome ↔ (r < 1 ∨ 5 < r)) ∧
    (∀ e, (update_rating st r).2 = some e →
      (update_rating st r).1 = st ∧ e = "Rating must be between 1 and 5") := by
  intro st r
  unfold update_rating
  split_ifs with h1 h2 <;>
    simp_all

/-- Witness for C9: rating 6 on the aggregate (3, 2) raises the descriptive
error and leaves the aggregate unchanged. -/
theorem update_rating_error_guard_witness :
    (update_rating ⟨3, 2⟩ 6).1 = ⟨3, 2⟩ ∧
    (update_rating ⟨3, 2⟩ 6).2 = some "Rating must be between 1 and 5" := by
  obtain ⟨h1, h2⟩ := update_rating_error_guard ⟨3, 2⟩ 6
  have he : ((update_rating ⟨3, 2⟩ 6).2).isSome := h1.mpr (by norm_num)
  obtain ⟨e, he2⟩ := Option.isSome_iff_exists.mp he
  obtain ⟨hs, hm⟩ := h2 e he2
  exact ⟨hs, by rw [he2, hm]⟩

/-! ### Preference-fit dimensions (C5) -/

/-- The smoking compatibility relation of the matcher: a "no_smoking" rider
matches a ride that does not allow smoking, a "smoking_allowed" rider matches
a ride that does. -/
def smoking_matches (sp : String) (cf : ComfortFeatures) : Bool :=
  (sp == "no_smoking" && cf.smoking_allowed.getD false == false) ||
  (sp == "smoking_allowed" && cf.smoking_allowed.getD false == true)

/-- The AC compatibility relation of the matcher. -/
def ac_matches (ap : String) (cf : ComfortFeatures) : Bool :=
  (ap == "ac_required" && cf.has_ac.getD false == true) ||
  (ap == "no_ac" && cf.has_ac.getD false == false)

/-- The chat compatibility relation of the matcher: a "chatty" rider matches
chat levels "chatty" and "moderate", a "quiet" rider matches "quiet" and
"moderate" (an absent level defaults to "moderate"). -/
def chat_matches (cp : String) (cf : ComfortFeatures) : Bool :=
  (cp == "chatty" && (cf.chat_level.getD "moderate" == "chatty" ||
    cf.chat_level.getD "moderate" == "moderate")) ||
  (cp == "quiet" && (cf.chat_level.getD "moderate" == "quiet" ||
    cf.chat_level.getD "moderate" == "moderate"))

/-- C5: in each of the smoking, AC and chat dimensions, a "no_preference"
rider is awarded exactly 3 points; a rider with a stated preference is
awarded exactly 5 points when the ride's corresponding comfort attribute
matches the stated preference and 0 points otherwise — in particular, a
stated chat preference that the ride's chat level does not match awards 0. -/
theorem preference_dimension_awards : ∀ (sp ap cp : String) (cf : ComfortFeatures),
    (smoking_points sp cf =
      if sp = "no_preference" then 3 else if smoking_matches sp cf then 5 else 0) ∧
    (ac_points ap cf =
      if ap = "no_preference" then 3 else if ac_matches ap cf then 5 else 0) ∧
    (chat_points cp cf =
      if cp = "no_preference" then 3 else if chat_matches cp cf then 5 else 0) ∧
    (cp ≠ "no_preference" → chat_matches cp cf = false → chat_points cp cf = 0) := by
  intro sp ap cp cf
  refine ⟨?_, ?_, ?_, ?_⟩
  · unfold smoking_points smoking_matches
    by_cases h : sp = "no_preference"
    · simp [h]
    · simp only [h, if_false, bne_iff_ne, ne_eq, not_false_eq_true, if_true]
      rcases hb : cf.smoking_allowed.getD false <;> by_cases h1 : sp = "no_smoking" <;>
        by_cases h2 : sp = "smoking_allowed" <;> simp_all
  · unfold ac_points ac_matches
    by_cases h : ap = "no_preference"
    · simp [h]
    · simp only [h, if_false, bne_iff_ne, ne_eq, not_false_eq_true, if_true]
      rcases hb : cf.has_ac.getD false <;> by_cases h1 : ap = "ac_required" <;>
        by_cases h2 : ap = "no_ac" <;> simp_all
  · unfold chat_points chat_matches
    by_cases h : cp = "no_preference"
    · simp [h]
    · simp only [h, if_false, bne_iff_ne, ne_eq, not_false_eq_true, if_true]
      by_cases h1 : cp = "chatty" <;> by_cases h2 : cp = "quiet" <;>
        by_cases hl : (cf.chat_level.getD "moderate" == "chatty" ||
          cf.chat_level.getD "moderate" == "moderate") = true <;>
        by_cases hl2 : (cf.chat_level.getD "moderate" == "quiet" ||
          cf.chat_level.getD "moderate" == "moderate") = true <;>
        simp_all
  · intro h hm
    unfold chat_points
    unfold chat_matches at hm
    simp only [Bool.or_eq_false_iff, Bool.and_eq_false_iff] at hm
    by_cases h1 : cp = "chatty" <;> by_cases h2 : cp = "quiet" <;> simp_all

/-- Comfort features with chat level "quiet" for the C5 witness. -/
def cfQuiet : ComfortFeatures :=
  { smoking_allowed := some false, has_ac := some true,
    chat_level := some "quiet", music_genres := none }

/-- Witness for C5: a rider with stated chat preference "chatty" receives 0
chat points on a ride whose chat level is "quiet" (no match), while a
"no_preference" smoking preference receives 3. -/
theorem preference_dimension_awards_witness :
    ("chatty" : String) ≠ "no_preference" ∧ chat_matches "chatty" cfQuiet = false ∧
    chat_points "chatty" cfQuiet = 0 ∧ smoking_points "no_preference" cfQuiet = 3 := by
  obtain ⟨hs, _, _, hchat⟩ := preference_dimension_awards "no_preference" "" "chatty" cfQuiet
  refine ⟨by decide, by decide, hchat (by decide) (by decide), ?_⟩
  rw [hs]; decide

/-! ### Proximity truthiness guard (C10) -/

/-- C10: the proximity factor contributes 0 whenever any one of the ride's
four coordinate fields is absent or exactly 0 (the guard uses Python
truthiness), and the whole score then equals the score of the same ride with
no coordinates at all. -/
theorem proximity_requires_truthy_coords : ∀ (ride : Ride) (u : User) (pd dd : ℝ),
    (ride.pickup_latitude = none ∨ ride.pickup_latitude = some 0 ∨
     ride.pickup_longitude = none ∨ ride.pickup_longitude = some 0 ∨
     ride.dropoff_latitude = none ∨ ride.dropoff_latitude = some 0 ∨
     ride.dropoff_longitude = none ∨ ride.dropoff_longitude = some 0) →
    proximity_points ride pd dd = 0 ∧
    match_score_at ride u pd dd =
      match_score_at { ride with pickup_latitude := none, pickup_longitude := none, dropoff_latitude := none, dropoff_longitude := none } u pd dd := by
  intro ride u pd dd h
  have hz : proximity_points ride pd dd = 0 := by
    unfold proximity_points
    rcases h with h | h | h | h | h | h | h | h <;> simp [truthyQ, h]
  refine ⟨hz, ?_⟩
  unfold match_score_at raw_score
  rw [hz]
  have hz2 : proximity_points { ride with pickup_latitude := none, pickup_longitude := none, dropoff_latitude := none, dropoff_longitude := none } pd dd = 0 := by
    simp [proximity_points, truthyQ]
  rw [hz2]
  rfl

/-- Ride on the equator: all four coordinate fields set, pickup latitude
exactly 0. -/
def rideEquator : Ride := { rideA with pickup_latitude := some 0 }

/-- Witness for C10: the equator ride (pickup latitude 0.0, all fields set)
gets no proximity points and scores as if it had no coordinates. -/
theorem proximity_requires_truthy_coords_witness :
    rideEquator.pickup_latitude = some 0 ∧
    proximity_points rideEquator (1 / 2 : ℝ) 2 = 0 ∧
    match_score_at rideEquator riderA (1 / 2 : ℝ) 2 =
      match_score_at { rideEquator with pickup_latitude := none, pickup_longitude := none, dropoff_latitude := none, dropoff_longitude := none } riderA (1 / 2 : ℝ) 2 := by
  obtain ⟨h1, h2⟩ := proximity_requires_truthy_coords rideEquator riderA
    (1 / 2 : ℝ) 2 (Or.inr (Or.inl rfl))
  exact ⟨rfl, h1, h2⟩

/-! ### Ranker: descending order and stability (C4) -/

lemma filter_orderedInsert (s : ℚ) (x : Ride × ℚ) :
    ∀ (l : List (Ride × ℚ)), List.Sorted score_ge l →
    (List.orderedInsert score_ge x l).filter (fun y => decide (y.2 = s)) =
      if x.2 = s then x :: l.filter (fun y => decide (y.2 = s))
      else l.filter (fun y => decide (y.2 = s))
  | [], _ => by
    by_cases h : x.2 = s <;> simp [h, List.orderedInsert]
  | y :: l, hl => by
    rw [List.orderedInsert]
    by_cases hxy : score_ge x y
    · rw [if_pos hxy]
      by_cases hx : x.2 = s <;> by_cases hy : y.2 = s <;>
        simp [List.filter_cons, hx, hy]
    · rw [if_neg hxy]
      have hlt : x.2 < y.2 := lt_of_not_le hxy
      have ih := filter_orderedInsert s x l hl.of_cons
      by_cases hy : y.2 = s
      · have hx : x.2 ≠ s := by rw [← hy]; exact ne_of_lt hlt
        rw [if_neg hx] at ih
        simp [List.filter_cons, hy, hx, ih]
      · by_cases hx : x.2 = s <;> simp [List.filter_cons, hy, hx] at ih ⊢ <;>
          rw [ih]

lemma filter_insertionSort (s : ℚ) :
    ∀ (l : List (Ride × ℚ)),
    (List.insertionSort score_ge l).filter (fun y => decide (y.2 = s)) =
      l.filter (fun y => decide (y.2 = s))
  | [] => rfl
  | x :: l => by
    rw [List.insertionSort,
      filter_orderedInsert s x _ (List.sorted_insertionSort score_ge l),
      filter_insertionSort s l]
    by_cases hx : x.2 = s <;> simp [hx, List.filter_cons]

/-- C4: the ranked output is sorted in non-increasing score order, and for
every score value the candidates carrying that score appear in the output in
exactly their input order (stable tie-break, no secondary key). -/
theorem rank_sorted_and_stable : ∀ (cands : List Ride) (u : User)
    (lat lng dest_lat dest_lng : ℝ),
    List.Sorted score_ge (rank cands u lat lng dest_lat dest_lng) ∧
    ∀ s : ℚ,
      (rank cands u lat lng dest_lat dest_lng).filter (fun y => decide (y.2 = s)) =
        (cands.map (fun r => (r, match_score r u lat lng dest_lat dest_lng))).filter
          (fun y => decide (y.2 = s)) := by
  intro cands u lat lng dest_lat dest_lng
  exact ⟨List.sorted_insertionSort score_ge _, fun s => filter_insertionSort s _⟩

/-! ### Membership facts about the candidate filters (C2, C3) -/

lemma mem_excludeUser {u : User} {l : List Ride} {r : Ride}
    (h : r ∈ excludeUser u l) : r ∈ l ∧ r.driver.id ≠ u.id := by
  unfold excludeUser at h
  obtain ⟨h1, h2⟩ := List.mem_filter.mp h
  exact ⟨h1, by simpa using h2⟩

lemma mem_excludeJoined {ps : List Passenger} {u : User} {l : List Ride} {r : Ride}
    (h : r ∈ excludeJoined ps u l) :
    r ∈ l ∧ ∀ p ∈ ps, ¬(p.ride = r.id ∧ p.passenger = u.id) := by
  unfold excludeJoined at h
  obtain ⟨h1, h2⟩ := List.mem_filter.mp h
  refine ⟨h1, ?_⟩
  intro p hp hcon
  simp only [Bool.not_eq_true', List.any_eq_false, Bool.and_eq_true, beq_iff_eq,
    not_and] at h2
  exact h2 p hp hcon.2 hcon.1

lemma mem_opt_filter {β : Type} {o : Option β} {l : List Ride}
    {g : β → Ride → Bool} {r : Ride} (h : r ∈ opt_filter o g l) : r ∈ l := by
  cases o
  · exact h
  · exact List.mem_of_mem_filter h

lemma mem_date_time_narrow {d : ℤ} {dep : Option String} {flex : ℤ}
    {l : List Ride} {r : Ride} (h : r ∈ date_time_narrow d dep flex l) :
    r ∈ l := by
  simp only [date_time_narrow] at h
  rcases dep with _ | t
  · exact List.mem_of_mem_filter h
  · dsimp only at h
    rcases hp : parse_query_time t with _ | m <;> rw [hp] at h
    · exact List.mem_of_mem_filter h
    · exact List.mem_of_mem_filter (List.mem_of_mem_filter h)

lemma available_rides_mem {pool : List Ride} {ps : List Passenger} {u : User}
    {now : ℤ} {r : Ride} (h : r ∈ available_rides pool ps u now) :
    r.status = "scheduled" ∧ now < r.departure_time ∧ r.available_seats ≠ 0 ∧
    r.driver.id ≠ u.id ∧ ∀ p ∈ ps, ¬(p.ride = r.id ∧ p.passenger = u.id) := by
  unfold available_rides at h
  obtain ⟨h, hj⟩ := mem_excludeJoined h
  obtain ⟨h, hd⟩ := mem_excludeUser h
  obtain ⟨_, hprops⟩ := List.mem_filter.mp h
  simp only [Bool.and_eq_true, beq_iff_eq, decide_eq_true_eq] at hprops
  exact ⟨hprops.1.1, hprops.1.2, Nat.pos_iff_ne_zero.mp hprops.2, hd, hj⟩

lemma search_rides_mem {pool : List Ride} {ps : List Passenger} {u : User}
    {date : Option ℤ} {dep flexRaw pickup dropoff workplace : Option String}
    {r : Ride}
    (h : r ∈ search_rides pool ps u date dep flexRaw pickup dropoff workplace) :
    r.status = "scheduled" ∧ r.available_seats ≠ 0 ∧ r.driver.id ≠ u.id ∧
    ∀ p ∈ ps, ¬(p.ride = r.id ∧ p.passenger = u.id) := by
  simp only [search_rides] at h
  obtain ⟨h, hj⟩ := mem_excludeJoined h
  obtain ⟨h, hd⟩ := mem_excludeUser h
  replace h := mem_opt_filter h
  replace h := mem_opt_filter h
  replace h := mem_opt_filter h
  have hb : r ∈ pool.filter (fun q => q.status == "scheduled" &&
      decide (0 < q.available_seats)) := by
    rcases date with _ | d
    · exact h
    · exact mem_date_time_narrow h
  obtain ⟨_, hprops⟩ := List.mem_filter.mp hb
  simp only [Bool.and_eq_true, beq_iff_eq, decide_eq_true_eq] at hprops
  exact ⟨hprops.1, Nat.pos_iff_ne_zero.mp hprops.2, hd, hj⟩

lemma recommended_rides_mem {pool : List Ride} {ps : List Passenger} {u : User}
    {now : ℤ} {r : Ride} (h : r ∈ recommended_rides pool ps u now) :
    r.status = "scheduled" ∧ now < r.departure_time ∧ r.available_seats ≠ 0 ∧
    r.driver.id ≠ u.id ∧ ∀ p ∈ ps, ¬(p.ride = r.id ∧ p.passenger = u.id) := by
  simp only [recommended_rides] at h
  have hbase : r ∈ excludeJoined ps u (excludeUser u
      (pool.filter (fun q => q.status == "scheduled" &&
        decide (now < q.departure_time) && decide (0 < q.available_seats)))) := by
    split at h
    · rcases List.mem_append.mp h with h1 | h1
      · rcases List.mem_append.mp h1 with h2 | h2
        · exact List.mem_of_mem_filter h2
        · exact List.mem_of_mem_filter (List.mem_of_mem_filter h2)
      · exact List.mem_of_mem_filter (List.mem_of_mem_filter h1)
    · exact h
  obtain ⟨hb, hj⟩ := mem_excludeJoined hbase
  obtain ⟨hb, hd⟩ := mem_excludeUser hb
  obtain ⟨_, hprops⟩ := List.mem_filter.mp hb
  simp only [Bool.and_eq_true, beq_iff_eq, decide_eq_true_eq] at hprops
  exact ⟨hprops.1.1, hprops.1.2, Nat.pos_iff_ne_zero.mp hprops.2, hd, hj⟩

lemma colleagues_rides_mem {pool : List Ride} {ps : List Passenger}
    {users : List User} {u : User} {now : ℤ} {r : Ride}
    (h : r ∈ colleagues_rides pool ps users u now) :
    r.status = "scheduled" ∧ now < r.departure_time ∧ r.available_seats ≠ 0 ∧
    r.driver.id ≠ u.id ∧ ∀ p ∈ ps, ¬(p.ride = r.id ∧ p.passenger = u.id) := by
  simp only [colleagues_rides] at h
  split at h
  · simp at h
  · obtain ⟨h, hj⟩ := mem_excludeJoined h
    obtain ⟨_, hprops⟩ := List.mem_filter.mp h
    simp only [Bool.and_eq_true, beq_iff_eq, decide_eq_true_eq,
      List.any_eq_true] at hprops
    obtain ⟨⟨⟨⟨c, hc, hcid⟩, hst⟩, hfut⟩, hseats⟩ := hprops
    obtain ⟨_, hcb⟩ := List.mem_filter.mp hc
    simp only [Bool.and_eq_true, beq_iff_eq, bne_iff_ne, ne_eq] at hcb
    refine ⟨hst, hfut, Nat.pos_iff_ne_zero.mp hseats, ?_, hj⟩
    rw [← hcid]
    exact hcb.2

lemma friend_group_rides_mem {pool : List Ride} {ps : List Passenger} {u : User}
    {now : ℤ} {group : String} {r : Ride}
    (h : r ∈ friend_group_rides pool ps u now group) :
    r.status = "scheduled" ∧ now < r.departure_time ∧ r.available_seats ≠ 0 ∧
    r.driver.id ≠ u.id ∧ ∀ p ∈ ps, ¬(p.ride = r.id ∧ p.passenger = u.id) := by
  simp only [friend_group_rides] at h
  split at h
  · simp at h
  · obtain ⟨h, hj⟩ := mem_excludeJoined h
    obtain ⟨h, hd⟩ := mem_excludeUser h
    refine ⟨?_, ?_, ?_, hd, hj⟩ <;>
    · rcases List.mem_append.mp h with h1 | h1
      · obtain ⟨_, hprops⟩ := List.mem_filter.mp h1
        simp only [Bool.and_eq_true, beq_iff_eq, decide_eq_true_eq] at hprops
        first
        | exact hprops.1.1.1
        | exact hprops.1.1.2
        | exact Nat.pos_iff_ne_zero.mp hprops.1.2
      · replace h1 := List.mem_of_mem_filter h1
        split at h1
        · simp at h1
        · obtain ⟨_, hprops⟩ := List.mem_filter.mp h1
          simp only [Bool.and_eq_true, beq_iff_eq, decide_eq_true_eq] at hprops
          first
          | exact hprops.1.1.2
          | exact hprops.1.2
          | exact Nat.pos_iff_ne_zero.mp hprops.2

lemma social_connections_rides_mem {pool : List Ride} {ps : List Passenger}
    {users : List User} {u : User} {now : ℤ} {r : Ride}
    (h : r ∈ social_connections_rides pool ps users u now) :
    r.status = "scheduled" ∧ now < r.departure_time ∧ r.available_seats ≠ 0 ∧
    r.driver.id ≠ u.id ∧ ∀ p ∈ ps, ¬(p.ride = r.id ∧ p.passenger = u.id) := by
  simp only [social_connections_rides] at h
  rw [List.mem_insertionSort] at h
  obtain ⟨h, hj⟩ := mem_excludeJoined h
  obtain ⟨h, hd⟩ := mem_excludeUser h
  have hb : r.status = "scheduled" ∧ now < r.departure_time ∧
      0 < r.available_seats := by
    have hcore : ∀ {cond : Ride → Bool},
        r ∈ pool.filter (fun q => cond q && q.status == "scheduled" &&
          decide (now < q.departure_time) && decide (0 < q.available_seats)) →
        r.status = "scheduled" ∧ now < r.departure_time ∧
          0 < r.available_seats := by
      intro cond hc
      obtain ⟨_, hprops⟩ := List.mem_filter.mp hc
      simp only [Bool.and_eq_true, beq_iff_eq, decide_eq_true_eq] at hprops
      exact ⟨hprops.1.1.2, hprops.1.2, hprops.2⟩
    split at h
    · exact hcore h
    · split at h
      · exact hcore h
      · split at h
        · exact hcore h
        · rcases List.mem_append.mp h with h1 | h1
          · exact hcore h1
          · exact hcore (List.mem_of_mem_filter h1)
  exact ⟨hb.1, hb.2.1, Nat.pos_iff_ne_zero.mp hb.2.2, hd, hj⟩

/-- C2: no ride returned by any of the six candidate-filtering entry points
is full, non-scheduled, driven by the requesting rider, or already joined by
the requesting rider in any passenger status. -/
theorem candidate_filter_exclusions : ∀ (pool : List Ride) (ps : List Passenger)
    (users : List User) (u : User) (now : ℤ) (date : Option ℤ)
    (dep flexRaw pickup dropoff workplace : Option String) (group : String)
    (r : Ride),
    (r ∈ available_rides pool ps u now ∨
     r ∈ search_rides pool ps u date dep flexRaw pickup dropoff workplace ∨
     r ∈ recommended_rides pool ps u now ∨
     r ∈ colleagues_rides pool ps users u now ∨
     r ∈ friend_group_rides pool ps u now group ∨
     r ∈ social_connections_rides pool ps users u now) →
    r.available_seats ≠ 0 ∧ r.status = "scheduled" ∧ r.driver.id ≠ u.id ∧
    ∀ p ∈ ps, ¬(p.ride = r.id ∧ p.passenger = u.id) := by
  rintro pool ps users u now date dep flexRaw pickup dropoff workplace group r
    (h | h | h | h | h | h)
  · obtain ⟨h1, _, h3, h4, h5⟩ := available_rides_mem h
    exact ⟨h3, h1, h4, h5⟩
  · obtain ⟨h1, h2, h3, h4⟩ := search_rides_mem h
    exact ⟨h2, h1, h3, h4⟩
  · obtain ⟨h1, _, h3, h4, h5⟩ := recommended_rides_mem h
    exact ⟨h3, h1, h4, h5⟩
  · obtain ⟨h1, _, h3, h4, h5⟩ := colleagues_rides_mem h
    exact ⟨h3, h1, h4, h5⟩
  · obtain ⟨h1, _, h3, h4, h5⟩ := friend_group_rides_mem h
    exact ⟨h3, h1, h4, h5⟩
  · obtain ⟨h1, _, h3, h4, h5⟩ := social_connections_rides_mem h
    exact ⟨h3, h1, h4, h5⟩

/-- Requesting rider used in the witness and counterexample scenarios (not
the driver of `rideA` and its variants). -/
def riderQ : User := { driverA with id := 99 }

/-- A ride in the past (relative to current time 0), scheduled, with seats. -/
def ridePast : Ride := { rideA with id := 21, departure_time := -10 }

/-- A ride in the future (relative to current time 0). -/
def rideFuture : Ride := { rideA with id := 22, departure_time := 5000 }

/-- Counterexample to C3 as stated: `search_rides` applies no future-only
constraint, so with no date requested it returns a scheduled past ride
(current time 0, departure at -10). -/
theorem search_rides_returns_past_ride :
    ridePast ∈ search_rides [ridePast] [] riderQ none none none none none none ∧
    ¬ ((0 : ℤ) < ridePast.departure_time) := by
  constructor
  · decide
  · decide

/-- C3 (amended): every entry point except `search_rides` — that is,
`available_rides`, `recommended_rides`, `colleagues_rides`,
`friend_group_rides` and `social_connections_rides` — returns only rides
with departure time strictly in the future. -/
theorem future_only_except_search : ∀ (pool : List Ride) (ps : List Passenger)
    (users : List User) (u : User) (now : ℤ) (group : String) (r : Ride),
    (r ∈ available_rides pool ps u now ∨
     r ∈ recommended_rides pool ps u now ∨
     r ∈ colleagues_rides pool ps users u now ∨
     r ∈ friend_group_rides pool ps u now group ∨
     r ∈ social_connections_rides pool ps users u now) →
    now < r.departure_time := by
  rintro pool ps users u now group r (h | h | h | h | h)
  · exact (available_rides_mem h).2.1
  · exact (recommended_rides_mem h).2.1
  · exact (colleagues_rides_mem h).2.1
  · exact (friend_group_rides_mem h).2.1
  · exact (social_connections_rides_mem h).2.1

/-- Witness for C2: a concrete admissible ride is returned by
`available_rides` and satisfies all four exclusion properties. -/
theorem candidate_filter_exclusions_witness :
    (rideFuture ∈ available_rides [rideFuture] [] riderQ 0) ∧
    rideFuture.available_seats ≠ 0 ∧ rideFuture.status = "scheduled" ∧
    rideFuture.driver.id ≠ riderQ.id ∧
    ∀ p ∈ ([] : List Passenger),
      ¬(p.ride = rideFuture.id ∧ p.passenger = riderQ.id) := by
  have hm : rideFuture ∈ available_rides [rideFuture] [] riderQ 0 := by decide
  exact ⟨hm, candidate_filter_exclusions [rideFuture] [] [] riderQ 0 none none
    none none none none "" rideFuture (Or.inl hm)⟩

/-- Witness for the amended C3: a concrete ride returned by
`recommended_rides` departs strictly after the current time. -/
theorem future_only_except_search_witness :
    (rideFuture ∈ recommended_rides [rideFuture] [] riderQ 0) ∧
    (0 : ℤ) < rideFuture.departure_time := by
  have hm : rideFuture ∈ recommended_rides [rideFuture] [] riderQ 0 := by decide
  exact ⟨hm, future_only_except_search [rideFuture] [] [] riderQ 0 ""
    rideFuture (Or.inr (Or.inl hm))⟩

/-- C8: when both a date and a departure time are supplied and the time
string fails to parse as HH:MM, the search silently falls back to date-only
filtering — it returns exactly the date-only result list (and in particular
never errors). -/
theorem search_time_parse_fallback : ∀ (pool : List Ride) (ps : List Passenger)
    (u : User) (d : ℤ) (t : String)
    (flexRaw pickup dropoff workplace : Option String),
    parse_query_time t = none →
    search_rides pool ps u (some d) (some t) flexRaw pickup dropoff workplace =
      search_rides pool ps u (some d) none flexRaw pickup dropoff workplace := by
  intro pool ps u d t flexRaw pickup dropoff workplace hp
  simp only [search_rides, date_time_narrow, hp]

/-- Witness for C8: the unparsable time string "oops" gives exactly the
date-only result on a concrete pool. -/
theorem search_time_parse_fallback_witness :
    parse_query_time "oops" = none ∧
    search_rides [rideFuture] [] riderQ (some 3) (some "oops") none none none none =
      search_rides [rideFuture] [] riderQ (some 3) none none none none none := by
  exact ⟨by decide, search_time_parse_fallback [rideFuture] [] riderQ 3 "oops"
    none none none none (by decide)⟩

end Carwaan
